import Mathlib

/-!
Verification of the SaaS Analytics backend (src/main.py, src/schemas.py).

The Python sources are shallowly embedded below.  Pure helpers
(`hash_password`, `verify_password`, `create_token`) become Lean functions;
the FastAPI handlers (`register`, `login`, `track_event`,
`analytics_summary`) become functions from the (optional) document-store
state and the request data to an `Except HTTPException` response, returning
the updated store where the handler inserts a document.

External collaborators that are not part of the repository's sources
(`database.py`, the passlib bcrypt context, the jose JWT codec, the MongoDB
aggregation engine) are modelled from the specification's contract for
them; every such definition carries a doc comment starting with
`Modelled from the spec:`.
-/

namespace SaaSAnalytics

/-! ## Data model (src/schemas.py) -/

/-- Event `properties` (`Dict[str, Any]` in the source) — the values are
never inspected by any handler, so they are abstracted as strings. -/
abbrev Properties := List (String × String)

/-- Users collection schema (src/schemas.py, class `User`). -/
structure User where
  email : String
  name : Option String
  password_hash : String
deriving DecidableEq, Repr

/-- Analytics events (src/schemas.py, class `Event`). -/
structure Event where
  user_id : String
  type : String
  properties : Properties
deriving DecidableEq, Repr

/-- Modelled from the spec: the document store (`database.py` is not among
the sources).  It holds the two collections `user` and `event`; `insert`
appends, `find_one` returns the first equality-filter match. -/
structure Store where
  user : List User
  event : List Event
deriving DecidableEq, Repr

/-- Modelled from the spec: `find_one("user", filter)` with an equality
filter on `email` returns the first matching document or absence. -/
def find_one_user (users : List User) (email : String) : Option User :=
  users.find? (fun u => u.email == email)

/-! ## Credential hasher (src/main.py `hash_password` / `verify_password`)

The passlib bcrypt context is an external primitive; it is modelled from
the spec's contract (section 4.1): `hash` is salted and always succeeds,
`verify` returns whether the password matches and treats a malformed hash
string as a non-match.  A bcrypt hash string is modelled as the prefix
`$2b$`, then the salt (which contains no `$`), then `$`, then a digest.
The digest is modelled as an idealized collision-free function of the
password (the spec's "overwhelmingly likely" made exact). -/

/-- Splits a char list at the first `$` into (salt, digest). -/
def splitSalt : List Char → Option (List Char × List Char)
  | [] => none
  | c :: rest =>
    if c = '$' then some ([], rest)
    else Option.map (fun p => (c :: p.1, p.2)) (splitSalt rest)

/-- Parses a modelled bcrypt hash string: the 4-char prefix `$2b$`, then
salt `$` digest. -/
def splitHash (l : List Char) : Option (List Char × List Char) :=
  if l.take 4 = ['$', '2', 'b', '$'] then splitSalt (l.drop 4) else none

/-- Modelled from the spec: `hash_password` (src/main.py line 42) wraps
`pwd_context.hash`; the internally generated random salt is made an
explicit argument. -/
def hash_password (salt : String) (password : String) : String :=
  "$2b$" ++ salt ++ "$" ++ password

/-- Modelled from the spec: `verify_password` (src/main.py line 46) wraps
`pwd_context.verify`; a hash string that does not parse is a non-match. -/
def verify_password (password : String) (password_hash : String) : Bool :=
  match splitHash password_hash.data with
  | none => false
  | some (_, dig) => dig == password.data

/-- A hash string is well-formed when it parses as a bcrypt hash. -/
def isBcryptHash (h : String) : Bool :=
  (splitHash h.data).isSome

/-! ### Parsing lemmas for the hash model -/

theorem splitSalt_append (s d : List Char) (h : '$' ∉ s) :
    splitSalt (s ++ '$' :: d) = some (s, d) := by
  induction s with
  | nil => simp [splitSalt]
  | cons c cs ih =>
    have hc : c ≠ '$' := by intro e; exact h (by simp [e])
    have h2 : '$' ∉ cs := fun m => h (List.mem_cons_of_mem _ m)
    simp [splitSalt, hc, ih h2]

theorem splitSalt_sound :
    ∀ (l s d : List Char), splitSalt l = some (s, d) →
      l = s ++ '$' :: d ∧ '$' ∉ s := by
  intro l
  induction l with
  | nil => intro s d h; simp [splitSalt] at h
  | cons c cs ih =>
    intro s d h
    by_cases hc : c = '$'
    · subst hc
      simp [splitSalt] at h
      obtain ⟨hs, hd⟩ := h
      subst hs; subst hd
      simp
    · simp only [splitSalt, if_neg hc, Option.map_eq_some'] at h
      obtain ⟨⟨s0, d0⟩, hsp, heq⟩ := h
      obtain ⟨h1, h2⟩ := ih s0 d0 hsp
      cases heq
      refine ⟨by simp [h1], ?_⟩
      intro hm
      rcases List.mem_cons.mp hm with h3 | h3
      · exact hc h3.symm
      · exact h2 h3

theorem data_hash_password (salt password : String) :
    (hash_password salt password).data =
      ['$', '2', 'b', '$'] ++ (salt.data ++ '$' :: password.data) := by
  simp [hash_password, String.data_append]

theorem splitHash_hash_password (salt password : String)
    (h : '$' ∉ salt.data) :
    splitHash (hash_password salt password).data =
      some (salt.data, password.data) := by
  rw [data_hash_password]
  simp [splitHash, splitSalt_append _ _ h]

/-! ## Token issuer/verifier (src/main.py `create_token`, jose `jwt`)

The jose JWT codec is an external primitive and is modelled from the spec
(section 4.2 and section 6, "Token format"): a token is an HMAC-signed
claims payload; `decode` succeeds exactly when the presented token is a
well-formed token whose signature was produced with the same secret and
whose algorithm is among the accepted ones. -/

/-- Claims payload carried by a token: `sub` (may be absent) and `iat`. -/
structure Claims where
  sub : Option String
  iat : Nat
deriving DecidableEq, Repr

/-- Modelled from the spec: the wire form of a token string — either a
well-formed signed claims payload, or a string that is not a token. -/
inductive TokenWire where
  | signed (claims : Claims) (secret : String) (alg : String)
  | notAToken (raw : String)
deriving DecidableEq, Repr

/-- Failure raised by the jose codec (`JWTError`). -/
inductive JWTError where
  | invalidSignature
  | invalidAlgorithm
  | malformedToken
deriving DecidableEq, Repr

/-- Modelled from the spec: `jwt.encode(payload, secret, algorithm)` signs
the claims with the secret under the given algorithm; always succeeds. -/
def jwt_encode (claims : Claims) (secret : String) (alg : String) : TokenWire :=
  TokenWire.signed claims secret alg

/-- Modelled from the spec: `jwt.decode(token, secret, algorithms)` checks
well-formedness, the algorithm and the signature, and returns the claims
payload on success. -/
def jwt_decode (token : TokenWire) (secret : String) (algorithms : List String) :
    Except JWTError Claims :=
  match token with
  | TokenWire.notAToken _ => Except.error JWTError.malformedToken
  | TokenWire.signed claims tokSecret alg =>
    if alg ∈ algorithms then
      if tokSecret = secret then Except.ok claims
      else Except.error JWTError.invalidSignature
    else Except.error JWTError.invalidAlgorithm

/-- JWT signing secret (src/main.py line 13; the built-in default used
when the environment variable is unset). -/
def JWT_SECRET : String := "dev-secret-change-me"

/-- JWT algorithm (src/main.py line 14). -/
def JWT_ALG : String := "HS256"

/-- Token issuance, `create_token` (src/main.py lines 50-52); the wall
clock read `int(datetime.utcnow().timestamp())` is an explicit argument. -/
def create_token (now : Nat) (email : String) : TokenWire :=
  jwt_encode { sub := some email, iat := now } JWT_SECRET JWT_ALG

/-- Failure of the spec-level token verifier (`InvalidToken`). -/
inductive TokenVerifyError where
  | invalidToken
deriving DecidableEq, Repr

/-- Modelled from the spec: the standalone verifier of section 4.2 —
`verify(token) → subject | failure`: decodes and checks the signature and
algorithm; on success returns the `subject` claim; fails with
`InvalidToken` when decoding fails or the subject claim is absent.  (No
standalone subject-returning verifier exists in src/main.py; the decode
step matches the one inlined in `track_event` and `get_current_user`.) -/
def verify_token (token : TokenWire) : Except TokenVerifyError String :=
  match jwt_decode token JWT_SECRET [JWT_ALG] with
  | Except.error _ => Except.error TokenVerifyError.invalidToken
  | Except.ok payload =>
    match payload.sub with
    | none => Except.error TokenVerifyError.invalidToken
    | some s => Except.ok s

/-! ## HTTP-level request/response shapes (src/main.py) -/

/-- FastAPI `HTTPException(status_code, detail)`. -/
structure HTTPException where
  status_code : Nat
  detail : String
deriving DecidableEq, Repr

/-- `AuthResponse` (src/main.py lines 32-35). -/
structure AuthResponse where
  token : TokenWire
  email : String
  name : Option String
deriving DecidableEq, Repr

/-- `EventIn` (src/main.py lines 37-39). -/
structure EventIn where
  type : String
  properties : Option Properties
deriving DecidableEq, Repr

/-- The optional `authorization` field of `track_event`: either a value of
the form `Bearer <token>` or some other string. -/
inductive AuthHeader where
  | bearer (token : TokenWire)
  | other (raw : String)
deriving DecidableEq, Repr

/-- Response body of `POST /events`. -/
structure TrackResponse where
  status : String
deriving DecidableEq, Repr

/-- Response body of `GET /analytics/summary`; `byType` keeps the order in
which the aggregation rows are returned. -/
structure SummaryResponse where
  total : Nat
  byType : List (String × Nat)
deriving DecidableEq, Repr

/-! ## Request handlers (src/main.py) -/

/-- Handler of `POST /auth/register` (src/main.py lines 78-88).  The store
handle `db` is `none` when the database is not configured; the fresh bcrypt
salt and the clock reading are explicit arguments.  On success the updated
store (with the new `user` document appended by `create_document`) is
returned alongside the response. -/
def register (db : Option Store) (now : Nat) (salt : String)
    (email : String) (password : String) :
    Except HTTPException (AuthResponse × Store) :=
  match db with
  | none => Except.error ⟨500, "Database not configured"⟩
  | some store =>
    match find_one_user store.user email with
    | some _ => Except.error ⟨400, "Email already registered"⟩
    | none =>
      let user_doc : User := ⟨email, none, hash_password salt password⟩
      let store' : Store := { store with user := store.user ++ [user_doc] }
      Except.ok (⟨create_token now email, email, none⟩, store')

/-- Handler of `POST /auth/login` (src/main.py lines 91-99).  Mirrors the
source's short-circuit `if not user or not verify_password(...)`: both the
missing-user case and the failed-verification case produce the same
`401 Invalid credentials` error. -/
def login (db : Option Store) (now : Nat)
    (email : String) (password : String) :
    Except HTTPException AuthResponse :=
  match db with
  | none => Except.error ⟨500, "Database not configured"⟩
  | some store =>
    match find_one_user store.user email with
    | none => Except.error ⟨401, "Invalid credentials"⟩
    | some user =>
      if verify_password password user.password_hash then
        Except.ok ⟨create_token now email, email, user.name⟩
      else Except.error ⟨401, "Invalid credentials"⟩

/-- Python's `email or "anonymous"` where `email` is `None` or the `sub`
claim: both `None` and the empty string are falsy. -/
def orAnonymous : Option String → String
  | none => "anonymous"
  | some s => if s = "" then "anonymous" else s

/-- The `email` value computed by `track_event` (src/main.py lines
106-113): if the `authorization` field is present and starts with
`Bearer `, decode the token and read `payload.get("sub")`; a decode
failure (`except JWTError: pass`) leaves `email = None`. -/
def resolveEmail (authorization : Option AuthHeader) : Option String :=
  match authorization with
  | some (AuthHeader.bearer token) =>
    match jwt_decode token JWT_SECRET [JWT_ALG] with
    | Except.ok payload => payload.sub
    | Except.error _ => none
  | _ => none

/-- Handler of `POST /events` (src/main.py lines 102-116).  The event is
stored regardless of token validity, with `user_id = email or "anonymous"`
and `properties = event.properties or {}`. -/
def track_event (db : Option Store) (event : EventIn)
    (authorization : Option AuthHeader) :
    Except HTTPException (TrackResponse × Store) :=
  match db with
  | none => Except.error ⟨500, "Database not configured"⟩
  | some store =>
    let email : Option String := resolveEmail authorization
    let data : Event := ⟨orAnonymous email, event.type, event.properties.getD []⟩
    Except.ok (⟨"ok"⟩, { store with event := store.event ++ [data] })

/-! ## Analytics aggregation (src/main.py lines 119-132)

The MongoDB aggregation engine is an external collaborator; the pipeline
`[{group by type, count}, {sort count desc}, {limit 10}]` is modelled from
the spec's contract for it: group rows are one per distinct `type` with
the number of events of that type, sorted by count descending, first 10
kept.  (The order of `$group` rows and of ties under `$sort` is
unspecified by MongoDB; the model fixes one concrete order.) -/

/-- Group rows of the `$group` stage: one `(type, count)` row per distinct
event type. -/
def groupCounts (events : List Event) : List (String × Nat) :=
  ((events.map Event.type).dedup).map
    (fun t => (t, events.countP (fun e => e.type == t)))

/-- Insertion step of the descending-by-count sort. -/
def insertByCount (x : String × Nat) : List (String × Nat) → List (String × Nat)
  | [] => [x]
  | y :: ys => if y.2 ≤ x.2 then x :: y :: ys else y :: insertByCount x ys

/-- The `$sort count: -1` stage: sorts rows by count, descending. -/
def sortByCountDesc : List (String × Nat) → List (String × Nat)
  | [] => []
  | x :: xs => insertByCount x (sortByCountDesc xs)

/-- The summary body built from the store contents: aggregation rows
(grouped, sorted descending, limited to 10) turned into the `byType`
mapping, `total` being the sum of the returned counts only. -/
def summaryOf (store : Store) : SummaryResponse :=
  let results := (sortByCountDesc (groupCounts store.event)).take 10
  ⟨(results.map Prod.snd).sum, results⟩

/-- Handler of `GET /analytics/summary` (src/main.py lines 119-132); the
`authorization` field is accepted and ignored by the source, so it is not
a parameter of the model. -/
def analytics_summary (db : Option Store) :
    Except HTTPException SummaryResponse :=
  match db with
  | none => Except.error ⟨500, "Database not configured"⟩
  | some store => Except.ok (summaryOf store)

/-! ## Lemmas about the aggregation model -/

theorem perm_insertByCount (x : String × Nat) (l : List (String × Nat)) :
    List.Perm (insertByCount x l) (x :: l) := by
  induction l with
  | nil => simp [insertByCount]
  | cons y ys ih =>
    by_cases h : y.2 ≤ x.2
    · simp [insertByCount, h]
    · simp only [insertByCount, if_neg h]
      exact (List.Perm.cons y ih).trans (List.Perm.swap x y ys)

theorem mem_insertByCount {z x : String × Nat} {l : List (String × Nat)} :
    z ∈ insertByCount x l ↔ z = x ∨ z ∈ l := by
  rw [(perm_insertByCount x l).mem_iff, List.mem_cons]

theorem pairwise_insertByCount (x : String × Nat) (l : List (String × Nat))
    (h : l.Pairwise (fun a b => b.2 ≤ a.2)) :
    (insertByCount x l).Pairwise (fun a b => b.2 ≤ a.2) := by
  induction l with
  | nil => simp [insertByCount]
  | cons y ys ih =>
    rw [List.pairwise_cons] at h
    obtain ⟨hy, hys⟩ := h
    by_cases hle : y.2 ≤ x.2
    · simp only [insertByCount, if_pos hle]
      rw [List.pairwise_cons]
      refine ⟨?_, List.pairwise_cons.mpr ⟨hy, hys⟩⟩
      intro z hz
      rcases List.mem_cons.mp hz with hz | hz
      · simpa [hz] using hle
      · exact (hy z hz).trans hle
    · simp only [insertByCount, if_neg hle]
      rw [List.pairwise_cons]
      refine ⟨?_, ih hys⟩
      intro z hz
      rcases mem_insertByCount.mp hz with hz | hz
      · exact hz ▸ (Nat.le_of_not_le hle)
      · exact hy z hz

theorem perm_sortByCountDesc (l : List (String × Nat)) :
    List.Perm (sortByCountDesc l) l := by
  induction l with
  | nil => simp [sortByCountDesc]
  | cons x xs ih =>
    exact (perm_insertByCount x (sortByCountDesc xs)).trans (List.Perm.cons x ih)

theorem pairwise_sortByCountDesc (l : List (String × Nat)) :
    (sortByCountDesc l).Pairwise (fun a b => b.2 ≤ a.2) := by
  induction l with
  | nil => simp [sortByCountDesc]
  | cons x xs ih => exact pairwise_insertByCount x _ ih

theorem mem_groupCounts {events : List Event} {x : String × Nat}
    (hx : x ∈ groupCounts events) :
    x.1 ∈ events.map Event.type ∧
      x.2 = events.countP (fun e => e.type == x.1) := by
  simp only [groupCounts, List.mem_map] at hx
  obtain ⟨t, ht, rfl⟩ := hx
  exact ⟨List.mem_dedup.mp ht, rfl⟩

/-- Whatever `track_event` resolves as `user_id` is a non-empty string. -/
theorem orAnonymous_ne_empty (o : Option String) : orAnonymous o ≠ "" := by
  cases o with
  | none => decide
  | some s =>
    simp only [orAnonymous]
    by_cases h : s = ""
    · rw [if_pos h]; decide
    · rw [if_neg h]; exact h

/-! ## Demonstration states used by the witnesses -/

/-- A store holding the single registered user `a@x.com` with password
`pw1` hashed under salt `ab`. -/
def storeA : Store := ⟨[⟨"a@x.com", none, hash_password "ab" "pw1"⟩], []⟩

/-- A store holding eleven events of eleven distinct types, so that the
top-10 limit of the analytics summary drops one group. -/
def storeEleven : Store :=
  ⟨[], [⟨"anonymous", "a", []⟩, ⟨"anonymous", "b", []⟩, ⟨"anonymous", "c", []⟩,
        ⟨"anonymous", "d", []⟩, ⟨"anonymous", "e", []⟩, ⟨"anonymous", "f", []⟩,
        ⟨"anonymous", "g", []⟩, ⟨"anonymous", "h", []⟩, ⟨"anonymous", "i", []⟩,
        ⟨"anonymous", "j", []⟩, ⟨"anonymous", "k", []⟩]⟩

/-! ## The claims -/

/-- Claim C2: for every subject string, verifying a token produced by
issuing a token for that subject succeeds and returns exactly that subject
(issue/verify round-trip under the same secret and algorithm). -/
theorem claim_C2_token_roundtrip (now : Nat) (subject : String) :
    verify_token (create_token now subject) = Except.ok subject := by
  simp [verify_token, create_token, jwt_encode, jwt_decode]

/-- Claim C9: with the store unavailable (`db is None`), each of the four
handlers fails with HTTP 500 and the store-not-configured detail message,
without touching any collection (no updated store is produced). -/
theorem claim_C9_store_unconfigured (now : Nat) (salt email password : String)
    (event : EventIn) (authorization : Option AuthHeader) :
    register none now salt email password =
      Except.error ⟨500, "Database not configured"⟩ ∧
    login none now email password =
      Except.error ⟨500, "Database not configured"⟩ ∧
    track_event none event authorization =
      Except.error ⟨500, "Database not configured"⟩ ∧
    analytics_summary none =
      Except.error ⟨500, "Database not configured"⟩ :=
  ⟨rfl, rfl, rfl, rfl⟩

/-- Claim C5: a `POST /events` request whose bearer token fails
verification still succeeds with status `ok`, and exactly one event with
`user_id = "anonymous"` is appended to the event collection. -/
theorem claim_C5_invalid_token_anonymous (store : Store) (event : EventIn)
    (token : TokenWire) (e : JWTError)
    (h : jwt_decode token JWT_SECRET [JWT_ALG] = Except.error e) :
    track_event (some store) event (some (AuthHeader.bearer token)) =
      Except.ok (⟨"ok"⟩,
        { store with event := store.event ++
            [⟨"anonymous", event.type, event.properties.getD []⟩] }) := by
  simp [track_event, resolveEmail, h, orAnonymous]

/-- Witness for claim C5 at a malformed token and an empty store. -/
theorem claim_C5_witness :
    track_event (some ⟨[], []⟩) ⟨"click", none⟩
        (some (AuthHeader.bearer (TokenWire.notAToken "garbage"))) =
      Except.ok (⟨"ok"⟩, ⟨[], [⟨"anonymous", "click", []⟩]⟩) :=
  claim_C5_invalid_token_anonymous ⟨[], []⟩ ⟨"click", none⟩
    (TokenWire.notAToken "garbage") JWTError.malformedToken rfl

/-- Claim C10: a `POST /events` request carrying a token validly signed
with the configured secret and algorithm but whose claims have no `sub`
field, or whose `sub` is the empty string, still succeeds with status `ok`
and stores the event with `user_id = "anonymous"`. -/
theorem claim_C10_empty_subject (store : Store) (event : EventIn) (iat : Nat)
    (sub? : Option String) (h : sub? = none ∨ sub? = some "") :
    track_event (some store) event
        (some (AuthHeader.bearer (jwt_encode ⟨sub?, iat⟩ JWT_SECRET JWT_ALG))) =
      Except.ok (⟨"ok"⟩,
        { store with event := store.event ++
            [⟨"anonymous", event.type, event.properties.getD []⟩] }) := by
  rcases h with h | h <;> subst h <;>
    simp [track_event, resolveEmail, jwt_encode, jwt_decode, orAnonymous]

/-- Witness for claim C10: both the missing-`sub` and the empty-`sub`
cases at a concrete store. -/
theorem claim_C10_witness :
    track_event (some ⟨[], []⟩) ⟨"click", none⟩
        (some (AuthHeader.bearer (jwt_encode ⟨none, 7⟩ JWT_SECRET JWT_ALG))) =
      Except.ok (⟨"ok"⟩, ⟨[], [⟨"anonymous", "click", []⟩]⟩) ∧
    track_event (some ⟨[], []⟩) ⟨"click", none⟩
        (some (AuthHeader.bearer (jwt_encode ⟨some "", 7⟩ JWT_SECRET JWT_ALG))) =
      Except.ok (⟨"ok"⟩, ⟨[], [⟨"anonymous", "click", []⟩]⟩) :=
  ⟨claim_C10_empty_subject ⟨[], []⟩ ⟨"click", none⟩ 7 none (Or.inl rfl),
   claim_C10_empty_subject ⟨[], []⟩ ⟨"click", none⟩ 7 (some "") (Or.inr rfl)⟩

/-- Claim C4: a login whose email has no user document, and a login whose
password does not verify against the stored hash, both fail with the very
same `401 Invalid credentials` error, so the two causes are
indistinguishable to the caller. -/
theorem claim_C4_login_unauthorized (store : Store) (now : Nat)
    (email password : String)
    (h : find_one_user store.user email = none ∨
      ∃ u, find_one_user store.user email = some u ∧
        verify_password password u.password_hash = false) :
    login (some store) now email password =
      Except.error ⟨401, "Invalid credentials"⟩ := by
  rcases h with h | ⟨u, hu, hv⟩
  · simp [login, h]
  · simp [login, hu, hv]

/-- Witness for claim C4: a registered user with the wrong password and an
unregistered email produce the identical error. -/
theorem claim_C4_witness :
    login (some storeA) 0 "a@x.com" "wrong" =
      Except.error ⟨401, "Invalid credentials"⟩ ∧
    login (some storeA) 0 "b@x.com" "pw1" =
      Except.error ⟨401, "Invalid credentials"⟩ :=
  ⟨claim_C4_login_unauthorized storeA 0 "a@x.com" "wrong"
      (Or.inr ⟨⟨"a@x.com", none, hash_password "ab" "pw1"⟩, rfl, by decide⟩),
   claim_C4_login_unauthorized storeA 0 "b@x.com" "pw1" (Or.inl rfl)⟩

/-- Soundness of the hash parser: a parse result fully determines the
shape of the hash string. -/
theorem splitHash_sound {l s d : List Char} (h : splitHash l = some (s, d)) :
    l = ['$', '2', 'b', '$'] ++ s ++ '$' :: d ∧ '$' ∉ s := by
  unfold splitHash at h
  by_cases hp : l.take 4 = ['$', '2', 'b', '$']
  · rw [if_pos hp] at h
    obtain ⟨h1, h2⟩ := splitSalt_sound _ _ _ h
    refine ⟨?_, h2⟩
    conv_lhs => rw [← List.take_append_drop 4 l]
    rw [hp, h1]
    simp
  · rw [if_neg hp] at h
    cases h

/-- Claim C7: password verification is a total boolean function; a hash
string that is not a well-formed bcrypt hash is treated as a non-match,
and verification accepts a hash only when it is the genuine hash of the
candidate password under some salt. -/
theorem claim_C7_verify_total_sound (password h : String) :
    (isBcryptHash h = false → verify_password password h = false) ∧
    (verify_password password h = true →
      isBcryptHash h = true ∧
      ∃ salt : String, '$' ∉ salt.data ∧ h = hash_password salt password) := by
  constructor
  · intro hm
    unfold isBcryptHash at hm
    unfold verify_password
    cases hsp : splitHash h.data with
    | none => rfl
    | some p => rw [hsp] at hm; simp at hm
  · intro hv
    unfold verify_password at hv
    cases hsp : splitHash h.data with
    | none => rw [hsp] at hv; cases hv
    | some p =>
      obtain ⟨s, d⟩ := p
      rw [hsp] at hv
      have hd : d = password.data := by simpa using hv
      obtain ⟨hshape, hnot⟩ := splitHash_sound hsp
      refine ⟨by simp [isBcryptHash, hsp], String.mk s, hnot, ?_⟩
      apply String.ext
      rw [hshape, hd, data_hash_password]
      rfl

/-- Witness for claim C7: a malformed hash string is a non-match, and a
genuine hash is recognized as well-formed. -/
theorem claim_C7_witness :
    verify_password "pw" "not-a-hash" = false ∧
    isBcryptHash (hash_password "ab" "pw") = true :=
  ⟨(claim_C7_verify_total_sound "pw" "not-a-hash").1 (by decide),
   ((claim_C7_verify_total_sound "pw" (hash_password "ab" "pw")).2
      (by decide)).1⟩

/-- Claim C8: verifying a password against its own hash succeeds, and
verifying any other password against that hash fails (the digest is
modelled as collision-free, the spec's "overwhelmingly likely"). -/
theorem claim_C8_hash_verify_roundtrip (salt p q : String)
    (hsalt : '$' ∉ salt.data) (hne : q ≠ p) :
    verify_password p (hash_password salt p) = true ∧
    verify_password q (hash_password salt p) = false := by
  have hsp := splitHash_hash_password salt p hsalt
  constructor
  · unfold verify_password
    rw [hsp]
    simp
  · unfold verify_password
    rw [hsp]
    simp only [beq_eq_false_iff_ne, ne_eq]
    intro hd
    exact hne (String.ext hd).symm

/-- Witness for claim C8 at concrete salt and passwords. -/
theorem claim_C8_witness :
    verify_password "pw1" (hash_password "ab" "pw1") = true ∧
    verify_password "wrong" (hash_password "ab" "pw1") = false :=
  claim_C8_hash_verify_roundtrip "ab" "pw1" "wrong" (by decide) (by decide)

/-- A user with the requested email is found by the pre-insert check. -/
theorem find_one_user_isSome {users : List User} {email : String}
    (h : ∃ u ∈ users, u.email = email) :
    (find_one_user users email).isSome := by
  rcases h with ⟨u, hu, he⟩
  simp only [find_one_user, List.find?_isSome]
  exact ⟨u, hu, by simp [he]⟩

/-- Claim C3: registering an email that already has a user document fails
with `400 Email already registered` (and, the handler failing, inserts
nothing); a successful registration preserves the at-most-one-user-per-
email invariant, since it is only reached when the pre-insert existence
check found no document. -/
theorem claim_C3_register_unique (store : Store) (now : Nat)
    (salt email password : String) :
    ((∃ u ∈ store.user, u.email = email) →
      register (some store) now salt email password =
        Except.error ⟨400, "Email already registered"⟩) ∧
    (store.user.Pairwise (fun a b => a.email ≠ b.email) →
      ∀ resp store',
        register (some store) now salt email password =
          Except.ok (resp, store') →
        store'.user.Pairwise (fun a b => a.email ≠ b.email)) := by
  constructor
  · intro hex
    obtain ⟨v, hv⟩ := Option.isSome_iff_exists.mp (find_one_user_isSome hex)
    simp [register, hv]
  · intro hpw resp store' hok
    cases hf : find_one_user store.user email with
    | some u => simp [register, hf] at hok
    | none =>
      simp only [register, hf, Except.ok.injEq, Prod.mk.injEq] at hok
      obtain ⟨-, hstore⟩ := hok
      have hnone : ∀ u ∈ store.user, u.email ≠ email := by
        intro u hu
        have := List.find?_eq_none.mp hf u hu
        simpa using this
      rw [← hstore]
      show (store.user ++
          [(⟨email, none, hash_password salt password⟩ : User)]).Pairwise
        (fun a b => a.email ≠ b.email)
      rw [List.pairwise_append]
      refine ⟨hpw, List.pairwise_singleton _ _, ?_⟩
      intro a ha b hb
      rw [List.mem_singleton] at hb
      subst hb
      exact hnone a ha

/-- Witness for claim C3: a duplicate registration against `storeA` fails
with 400, and a fresh registration keeps all emails distinct. -/
theorem claim_C3_witness :
    register (some storeA) 0 "cd" "a@x.com" "pw2" =
      Except.error ⟨400, "Email already registered"⟩ ∧
    (List.Pairwise (fun (a : User) b => a.email ≠ b.email)
      [⟨"a@x.com", none, hash_password "ab" "pw1"⟩,
       ⟨"b@x.com", none, hash_password "cd" "pw2"⟩]) :=
  ⟨(claim_C3_register_unique storeA 0 "cd" "a@x.com" "pw2").1
      ⟨⟨"a@x.com", none, hash_password "ab" "pw1"⟩, List.mem_singleton.mpr rfl,
        rfl⟩,
   (claim_C3_register_unique storeA 0 "cd" "b@x.com" "pw2").2 (by decide)
      ⟨create_token 0 "b@x.com", "b@x.com", none⟩
      ⟨[⟨"a@x.com", none, hash_password "ab" "pw1"⟩,
        ⟨"b@x.com", none, hash_password "cd" "pw2"⟩], []⟩ rfl⟩

/-- Claim C6 counterexample: a token validly signed with the configured
secret and algorithm whose `sub` claim is the empty string verifies
successfully and its subject is `""`, yet the stored event's `user_id` is
`"anonymous"`, which differs from that subject — so "user_id equals the
token's subject" fails as stated. -/
theorem claim_C6_counterexample :
    jwt_decode (jwt_encode ⟨some "", 0⟩ JWT_SECRET JWT_ALG) JWT_SECRET
        [JWT_ALG] = Except.ok ⟨some "", 0⟩ ∧
    verify_token (jwt_encode ⟨some "", 0⟩ JWT_SECRET JWT_ALG) =
      Except.ok "" ∧
    track_event (some ⟨[], []⟩) ⟨"click", none⟩
        (some (AuthHeader.bearer (jwt_encode ⟨some "", 0⟩ JWT_SECRET JWT_ALG))) =
      Except.ok (⟨"ok"⟩, ⟨[], [⟨"anonymous", "click", []⟩]⟩) ∧
    "anonymous" ≠ "" := by
  refine ⟨rfl, rfl, ?_, by decide⟩
  simp [track_event, resolveEmail, jwt_encode, jwt_decode, orAnonymous]

/-- Claim C6 (amended): a `POST /events` request carrying a bearer token
that decodes successfully and whose subject claim is a non-empty string
stores the event with `user_id` equal to that subject; a request with no
authorization field stores it with `user_id = "anonymous"`; and in every
case the stored `user_id` is non-empty. -/
theorem claim_C6_user_id (store : Store) (event : EventIn) :
    (∀ token payload subject,
      jwt_decode token JWT_SECRET [JWT_ALG] = Except.ok payload →
      payload.sub = some subject → subject ≠ "" →
      track_event (some store) event (some (AuthHeader.bearer token)) =
        Except.ok (⟨"ok"⟩,
          { store with event := store.event ++
              [⟨subject, event.type, event.properties.getD []⟩] })) ∧
    (track_event (some store) event none =
      Except.ok (⟨"ok"⟩,
        { store with event := store.event ++
            [⟨"anonymous", event.type, event.properties.getD []⟩] })) ∧
    (∀ authorization : Option AuthHeader, ∃ uid : String, uid ≠ "" ∧
      track_event (some store) event authorization =
        Except.ok (⟨"ok"⟩,
          { store with event := store.event ++
              [⟨uid, event.type, event.properties.getD []⟩] })) := by
  refine ⟨?_, rfl, ?_⟩
  · intro token payload subject htok hsub hne
    simp [track_event, resolveEmail, htok, hsub, orAnonymous, hne]
  · intro authorization
    exact ⟨orAnonymous (resolveEmail authorization), orAnonymous_ne_empty _,
      rfl⟩

/-- Witness for claim C6 at a token issued for `a@x.com`. -/
theorem claim_C6_witness :
    track_event (some ⟨[], []⟩) ⟨"view", none⟩
        (some (AuthHeader.bearer (create_token 0 "a@x.com"))) =
      Except.ok (⟨"ok"⟩, ⟨[], [⟨"a@x.com", "view", []⟩]⟩) :=
  (claim_C6_user_id ⟨[], []⟩ ⟨"view", none⟩).1 (create_token 0 "a@x.com")
    ⟨some "a@x.com", 0⟩ "a@x.com" rfl rfl (by decide)

theorem summaryOf_byType (store : Store) :
    (summaryOf store).byType =
      (sortByCountDesc (groupCounts store.event)).take 10 := rfl

theorem summaryOf_total (store : Store) :
    (summaryOf store).total =
      (((sortByCountDesc (groupCounts store.event)).take 10).map Prod.snd).sum :=
  rfl

/-- Claim C1: in every state of the event collection the analytics summary
holds at most 10 groups; the groups are genuine `(type, count)` rows of
the grouping, sorted by count descending, and every returned group's count
is at least every omitted group's count; the returned `total` is the sum
of the returned counts only. -/
theorem claim_C1_summary_top10 (store : Store) :
    analytics_summary (some store) = Except.ok (summaryOf store) ∧
    (summaryOf store).byType.length ≤ 10 ∧
    List.Pairwise (fun a b => b.2 ≤ a.2) (summaryOf store).byType ∧
    (summaryOf store).total = ((summaryOf store).byType.map Prod.snd).sum ∧
    (∀ x ∈ (summaryOf store).byType,
      x ∈ groupCounts store.event ∧
      x.2 = store.event.countP (fun e => e.type == x.1)) ∧
    (∀ y ∈ groupCounts store.event, y ∉ (summaryOf store).byType →
      ∀ x ∈ (summaryOf store).byType, y.2 ≤ x.2) := by
  have hsorted := pairwise_sortByCountDesc (groupCounts store.event)
  have hperm := perm_sortByCountDesc (groupCounts store.event)
  refine ⟨rfl, ?_, ?_, rfl, ?_, ?_⟩
  · rw [summaryOf_byType, List.length_take]
    exact min_le_left _ _
  · rw [summaryOf_byType]
    exact List.Pairwise.sublist (List.take_sublist 10 _) hsorted
  · intro x hx
    rw [summaryOf_byType] at hx
    have hx' : x ∈ sortByCountDesc (groupCounts store.event) :=
      List.take_subset 10 _ hx
    have hg : x ∈ groupCounts store.event := hperm.mem_iff.mp hx'
    exact ⟨hg, (mem_groupCounts hg).2⟩
  · intro y hy hyn x hx
    rw [summaryOf_byType] at hx hyn
    have hy' : y ∈ sortByCountDesc (groupCounts store.event) :=
      hperm.mem_iff.mpr hy
    have hsplit := List.take_append_drop 10 (sortByCountDesc (groupCounts store.event))
    have hpair : ((sortByCountDesc (groupCounts store.event)).take 10 ++
        (sortByCountDesc (groupCounts store.event)).drop 10).Pairwise
          (fun a b => b.2 ≤ a.2) := by
      rw [hsplit]; exact hsorted
    have hyd : y ∈ (sortByCountDesc (groupCounts store.event)).drop 10 := by
      have : y ∈ (sortByCountDesc (groupCounts store.event)).take 10 ++
          (sortByCountDesc (groupCounts store.event)).drop 10 := by
        rw [hsplit]; exact hy'
      rcases List.mem_append.mp this with h | h
      · exact absurd h hyn
      · exact h
    exact (List.pairwise_append.mp hpair).2.2 x hx y hyd

/-- Witness for claim C1 at a store of eleven events of eleven distinct
types: the summary returns 10 groups, the omitted group `("k", 1)` counts
no more than any returned group, and the returned total (10) is not the
number of stored events (11). -/
theorem claim_C1_witness :
    analytics_summary (some storeEleven) = Except.ok (summaryOf storeEleven) ∧
    (summaryOf storeEleven).byType.length ≤ 10 ∧
    (("k", 1) ∈ groupCounts storeEleven.event ∧
      (("k", 1) : String × Nat) ∉ (summaryOf storeEleven).byType ∧
      ∀ x ∈ (summaryOf storeEleven).byType, (("k", 1) : String × Nat).2 ≤ x.2) ∧
    (summaryOf storeEleven).total = 10 ∧ storeEleven.event.length = 11 :=
  ⟨(claim_C1_summary_top10 storeEleven).1,
   (claim_C1_summary_top10 storeEleven).2.1,
   ⟨by decide, by decide,
    (claim_C1_summary_top10 storeEleven).2.2.2.2.2 ("k", 1) (by decide)
      (by decide)⟩,
   by decide, rfl⟩

end SaaSAnalytics

